import Mathlib

/-!
Verification of the Angular-guidelines MCP server (`src/index.ts`).

The development shallowly embeds the request dispatcher, the section
extractor, the validation rule engine and the two prompt templates as
executable Lean functions, and proves the behavioural claims about them.
JavaScript-specific semantics (string `includes`, `split`, `slice`,
`findIndex` with `-1` sentinel, template-literal printing of `undefined`,
falsiness of the empty string) are modelled by small helper functions.
-/

set_option maxRecDepth 200000
set_option maxHeartbeats 2000000

/-- JS `Array.prototype.findIndex` over a list of lines, with the callback
receiving `(element, index)`; returns `-1` when no element matches. -/
def jsFindIndexAux (p : Nat → String → Bool) : Nat → List String → Int
  | _, [] => -1
  | i, a :: as => if p i a then (i : Int) else jsFindIndexAux p (i + 1) as

def jsFindIndex (p : Nat → String → Bool) (l : List String) : Int :=
  jsFindIndexAux p 0 l

/-- JS index clamping used by `Array.prototype.slice`. -/
def jsIndexClamp (len : Nat) (i : Int) : Nat :=
  if i < 0 then (len + i).toNat else min i.toNat len

/-- JS `Array.prototype.slice(start, end)`. -/
def jsSlice (l : List String) (s e : Int) : List String :=
  (l.take (jsIndexClamp l.length e)).drop (jsIndexClamp l.length s)

/-- Prefix test on character lists (both JS `includes` and `startsWith`
reduce to this). -/
def charsHavePrefix : List Char → List Char → Bool
  | [], _ => true
  | _ :: _, [] => false
  | a :: as, b :: bs => a == b && charsHavePrefix as bs

/-- Scan of `charsHavePrefix` along every suffix. -/
def charsIncludeAux (pat : List Char) : List Char → Bool
  | [] => pat.isEmpty
  | l@(_ :: rest) => charsHavePrefix pat l || charsIncludeAux pat rest

/-- JS `String.prototype.includes`. -/
def strIncludes (s pat : String) : Bool :=
  charsIncludeAux pat.data s.data

/-- JS `String.prototype.startsWith`. -/
def strStartsWith (s pat : String) : Bool :=
  charsHavePrefix pat.data s.data

/-- JS string split on the newline character: accumulate the current line
(in reverse) while walking the characters. -/
def splitLinesAux : List Char → List Char → List String
  | acc, [] => [String.mk acc.reverse]
  | acc, c :: cs =>
    if c == '\n' then String.mk acc.reverse :: splitLinesAux [] cs
    else splitLinesAux (c :: acc) cs

def splitLines (s : String) : List String :=
  splitLinesAux [] s.data

/-- JS array join with the newline separator. -/
def joinNl (l : List String) : String :=
  String.intercalate "\n" l

/-- How a JS template literal prints a possibly-`undefined` string. -/
def jsShowOpt (o : Option String) : String :=
  match o with
  | none => "undefined"
  | some s => s

/-- JS or-else on a possibly-absent string: `undefined` and the empty
string are falsy. -/
def jsOrElse (o : Option String) (dflt : String) : String :=
  match o with
  | none => dflt
  | some s => if s = "" then dflt else s

/-- JS `s.charAt(0).toUpperCase() + s.slice(1)`. -/
def capitalizeFirst (s : String) : String :=
  match s.data with
  | [] => ""
  | c :: cs => String.mk (c.toUpper :: cs)

/-- The guideline document (`ANGULAR_GUIDELINES` in `src/index.ts`),
verbatim; in the literal, `\x23` is `#`, `\x60` a backtick, `\x27` an
apostrophe, `\x7b` / `\x7d` braces and `\x69` is `i`. -/
def ANGULAR_GUIDELINES : String := "
\x23 TypeScript, Angular, and Scalable Web Application Best Practices

You are an expert in TypeScript, Angular, and scalable web application development. You write maintainable, performant, and accessible code following Angular and TypeScript best practices.

\x23# TypeScript Best Practices
- Use strict type checking  
- Prefer type inference when the type is obvious  
- Avoid the \x60any\x60 type; use \x60unknown\x60 when type is uncertain  

\x23# Angular Best Practices
- Always use standalone components over NgModules  
- Don\x27t use explicit \x60standalone: true\x60 (it is implied by default)  
- Use signals for state management  
- Implement lazy loading for feature routes  
- Use \x60NgOptimizedImage\x60 for all static images  

\x23# Components
- Keep components small and focused on a single responsibility  
- Use \x60input()\x60 and \x60output()\x60 functions instead of decorators  
- Use \x60computed()\x60 for derived state  
- Set \x60changeDetection: ChangeDetectionStrategy.OnPush\x60 in \x60@Component\x60 decorator  
- Prefer inline templates for small components  
- Prefer Reactive forms instead of Template-driven ones  
- Do NOT use \x60ngClass\x60, use \x60class\x60 bindings instead  
- DO NOT use \x60ngStyle\x60, use \x60style\x60 bindings instead  

\x23# State Management
- Use signals for local component state  
- Use \x60computed()\x60 for derived state  
- Keep state transformations pure and predictable  

\x23# Templates
- Keep templates simple and avoid complex logic  
- Use native control flow (\x60@if\x60, \x60@for\x60, \x60@switch\x60) instead of \x60*ngIf\x60, \x60*ngFor\x60, \x60*ngSwitch\x60  
- Use the async pipe to handle observables  

\x23# Services
- Design services around a single responsibility  
- Use the \x60providedIn: \x27root\x27\x60 option for singleton services  
- Use the \x60inject()\x60 function instead of constructor injection
"

structure CodeExamplesT where
  component : String
  service : String
deriving DecidableEq

/-- The example catalog (`CODE_EXAMPLES` in `src/index.ts`), verbatim,
with the same character escapes as `ANGULAR_GUIDELINES`. -/
def CODE_EXAMPLES : CodeExamplesT where
  component := "
// Good: Modern Angular component with signals
\x69mport \x7b Component, input, output, computed, ChangeDetectionStrategy \x7d from \x27@angular/core\x27;
\x69mport \x7b CommonModule \x7d from \x27@angular/common\x27;

@Component(\x7b
  selector: \x27app-user-card\x27,
  template: \x60
    <div class=\"user-card\" 
         [class.active]=\"isActive()\"
         [style.background-color]=\"backgroundColor()\">
      @if (user(); as currentUser) \x7b
        <h3>\x7b\x7b currentUser.name \x7d\x7d</h3>
        <p>\x7b\x7b currentUser.email \x7d\x7d</p>
        @if (showActions()) \x7b
          <button (click)=\"onEdit()\">Edit</button>
        \x7d
      \x7d
    </div>
  \x60,
  changeDetection: ChangeDetectionStrategy.OnPush,
  imports: [CommonModule]
\x7d)
export class UserCardComponent \x7b
  user = input.required<User>();
  showActions = input(false);
  userUpdated = output<User>();
  
  backgroundColor = computed(() => this.isActive() ? \x27#e3f2fd\x27 : \x27#fff\x27);
  isActive = computed(() => this.user()?.status === \x27active\x27);
  
  onEdit() \x7b
    this.userUpdated.emit(this.user());
  \x7d
\x7d
  "
  service := "
// Good: Modern Angular service with inject()
\x69mport \x7b Injectable, inject \x7d from \x27@angular/core\x27;
\x69mport \x7b HttpClient \x7d from \x27@angular/common/http\x27;
\x69mport \x7b Observable, signal \x7d from \x27rxjs\x27;

@Injectable(\x7b
  providedIn: \x27root\x27
\x7d)
export class UserService \x7b
  private http = inject(HttpClient);
  private users = signal<User[]>([]);
  
  readonly users$ = this.users.asReadonly();
  
  loadUsers(): Observable<User[]> \x7b
    return this.http.get<User[]>(\x27/api/users\x27);
  \x7d
  
  updateUsers(users: User[]) \x7b
    this.users.set(users);
  \x7d
\x7d
  "

structure ContentBlock where
  type : String
  text : String
deriving DecidableEq

structure ToolResponse where
  content : List ContentBlock
  isError : Bool := false
deriving DecidableEq

structure PromptMessage where
  role : String
  content : ContentBlock
deriving DecidableEq

structure PromptResult where
  messages : List PromptMessage
deriving DecidableEq

/-- Fields of `request.params.arguments` read by the tool handlers
(`args?.section`, `args?.type`, `args?.code`); `none` models an absent
field (or an absent `arguments` object). `section` is a Lean keyword, so
that field is called `sectionName` here. -/
structure ToolArgs where
  sectionName : Option String := none
  type : Option String := none
  code : Option String := none
deriving DecidableEq

/-- Fields of `request.params.arguments` read by the prompt handlers. -/
structure PromptArgs where
  code : Option String := none
  componentName : Option String := none
  features : Option String := none
deriving DecidableEq

/-- The process-wide content store: the only data the handlers read
besides their arguments. -/
structure ServerState where
  guidelines : String
  examples : CodeExamplesT
deriving DecidableEq

def initialState : ServerState where
  guidelines := ANGULAR_GUIDELINES
  examples := CODE_EXAMPLES

/-- The `sectionMap` object literal in `getAngularGuidelines`
(own-property lookup). -/
def sectionMap (s : String) : Option String :=
  if s = "typescript" then some "TypeScript Best Practices"
  else if s = "angular" then some "Angular Best Practices"
  else if s = "components" then some "Components"
  else if s = "state" then some "State Management"
  else if s = "templates" then some "Templates"
  else if s = "services" then some "Services"
  else none

/-- The body of the `if (sectionTitle)` block in `getAngularGuidelines`
(src/index.ts:310-319): `findIndex` of the first line containing the
title, `findIndex` of the first later `## ` line not containing it,
`slice`/`join`, with the full document as fallback when the title is not
found. -/
def extractSectionCode (doc sectionTitle : String) : String :=
  let lines := splitLines doc
  let startIndex := jsFindIndex (fun _ line => strIncludes line sectionTitle) lines
  let nextSectionIndex := jsFindIndex
    (fun index line =>
      decide ((index : Int) > startIndex) &&
      strStartsWith line "## " &&
      !(strIncludes line sectionTitle)) lines
  if startIndex ≠ -1 then
    let endIndex := if nextSectionIndex ≠ -1 then nextSectionIndex else (lines.length : Int)
    joinNl (jsSlice lines startIndex endIndex)
  else doc

/-- The `content` value computed by `getAngularGuidelines`
(src/index.ts:295-321). In the outer guard (section truthy and distinct
from the literal all) an absent section and the empty string are falsy;
the inner guard on sectionTitle is the match on the `sectionMap` lookup. -/
def extractContent (doc : String) (sectionName : Option String) : String :=
  match sectionName with
  | none => doc
  | some s =>
    if s = "" then doc
    else if s = "all" then doc
    else
      match sectionMap s with
      | none => doc
      | some sectionTitle => extractSectionCode doc sectionTitle

/-- `getAngularGuidelines` (src/index.ts:295-331), with the module-level
`ANGULAR_GUIDELINES` abstracted as `doc`. -/
def getAngularGuidelinesImpl (doc : String) (sectionName : Option String) : ToolResponse :=
  { content := [{ type := "text", text := extractContent doc sectionName }] }

/-- `getCodeExample` (src/index.ts:333-358); a `throw` is modelled as
`Except.error` carrying the `Error.message` (a JS template literal prints
an `undefined` key as the seven-letter text undefined). -/
def getCodeExampleImpl (examples : CodeExamplesT) (type : Option String) :
    Except String ToolResponse :=
  if type = some "all" then
    let text := "# Angular Code Examples\n\n## Component Example" ++ examples.component ++
      "\n\n## Service Example" ++ examples.service
    .ok { content := [{ type := "text", text := text }] }
  else
    match type with
    | none => .error ("No example available for type: " ++ jsShowOpt none)
    | some t =>
      let exampleOpt : Option String :=
        if t = "component" then some examples.component
        else if t = "service" then some examples.service
        else none
      match exampleOpt with
      | none => .error ("No example available for type: " ++ t)
      | some ex =>
        let text := "# " ++ capitalizeFirst t ++ " Example\n" ++ ex
        .ok { content := [{ type := "text", text := text }] }

/-- The rule engine inside `validateCode` (src/index.ts:360-402): the
`issues` array after all pushes, in push order. -/
def validateIssues (code : String) (type : Option String) : List String :=
  (if strIncludes code "any" then
    ["❌ Avoid using \"any\" type - use specific types or \"unknown\" instead"] else []) ++
  (if strIncludes code "*ngIf" || strIncludes code "*ngFor" || strIncludes code "*ngSwitch" then
    ["❌ Use native control flow (@if, @for, @switch) instead of structural directives"] else []) ++
  (if strIncludes code "ngClass" then
    ["❌ Use [class] bindings instead of ngClass"] else []) ++
  (if strIncludes code "ngStyle" then
    ["❌ Use [style] bindings instead of ngStyle"] else []) ++
  (if strIncludes code "@Input()" || strIncludes code "@Output()" then
    ["⚠️ Consider using input() and output() functions instead of decorators"] else []) ++
  (if type = some "component" then
    (if !(strIncludes code "ChangeDetectionStrategy.OnPush") then
      ["⚠️ Consider using OnPush change detection strategy for better performance"] else []) ++
    (if !(strIncludes code "signal(") && !(strIncludes code "computed(") then
      ["💡 Consider using signals for state management"] else [])
   else []) ++
  (if type = some "service" then
    (if !(strIncludes code "inject(") then
      ["⚠️ Consider using inject() function instead of constructor injection"] else []) ++
    (if !(strIncludes code "providedIn: \x27root\x27") then
      ["💡 Consider using providedIn: \"root\" for singleton services"] else [])
   else [])

/-- `validateCode` (src/index.ts:360-416): formats the issue list, with
the module-level `ANGULAR_GUIDELINES` abstracted as `doc`. -/
def validateCodeImpl (doc code : String) (type : Option String) : ToolResponse :=
  let issues := validateIssues code type
  let result :=
    if issues.length > 0 then
      "# Code Validation Results\n\n## Issues Found:\n" ++
        joinNl (issues.map (fun issue => "- " ++ issue)) ++
        "\n\n## Guidelines:\n" ++ doc
    else
      "# Code Validation Results\n\n✅ Code looks good! No major issues found.\n\n## Guidelines:\n" ++ doc
  { content := [{ type := "text", text := result }] }

/-- The `CallToolRequestSchema` handler body inside the `try` block
(src/index.ts:196-209). A thrown `Error`, and the `TypeError` raised by
`code.includes` when `args?.code` is `undefined`, become `Except.error`
carrying the JS error message. -/
def callToolImpl (st : ServerState) (name : String) (args : ToolArgs) :
    Except String ToolResponse :=
  if name = "get_angular_guidelines" then
    .ok (getAngularGuidelinesImpl st.guidelines args.sectionName)
  else if name = "get_code_example" then
    getCodeExampleImpl st.examples args.type
  else if name = "validate_angular_code" then
    match args.code with
    | none => .error "Cannot read properties of undefined (reading \x27includes\x27)"
    | some code => .ok (validateCodeImpl st.guidelines code args.type)
  else
    .error ("Unknown tool: " ++ name)

/-- The full `CallToolRequestSchema` handler (src/index.ts:193-221): the
`catch` converts any failure into an `isError` envelope. No handler writes
to the server state, so it is returned unchanged. -/
def handleToolRequest (st : ServerState) (name : String) (args : ToolArgs) :
    ServerState × ToolResponse :=
  (st,
    match callToolImpl st name args with
    | .ok r => r
    | .error msg =>
      { content := [{ type := "text", text := "Error: " ++ msg }], isError := true })

/-- The `GetPromptRequestSchema` handler body (src/index.ts:259-292), with
the module-level `ANGULAR_GUIDELINES` abstracted as `doc`; it has no
`catch`, so an unknown prompt name is a propagated rejection
(`Except.error`). -/
def getPromptImpl (doc : String) (name : String) (args : PromptArgs) :
    Except String PromptResult :=
  if name = "angular_code_review" then
    let text := "Please review this Angular/TypeScript code for best practices compliance:\n\n" ++
      jsShowOpt args.code ++
      "\n\nCheck against these guidelines:\n" ++ doc ++
      "\n\nProvide specific feedback on what can be improved."
    .ok { messages := [{ role := "user", content := { type := "text", text := text } }] }
  else if name = "create_angular_component" then
    let text := "Create a new Angular component named \"" ++ jsShowOpt args.componentName ++
      "\" following these best practices:\n" ++ doc ++
      "\n\nFeatures requested: " ++ jsOrElse args.features "Basic component structure" ++
      "\n\nEnsure the component uses modern Angular features like signals, standalone components, and proper TypeScript typing."
    .ok { messages := [{ role := "user", content := { type := "text", text := text } }] }
  else
    .error ("Unknown prompt: " ++ name)

/-- The prompt dispatcher as a transition on the server state: no handler
writes to it, so it is returned unchanged. -/
def handlePromptRequest (st : ServerState) (name : String) (args : PromptArgs) :
    ServerState × Except String PromptResult :=
  (st, getPromptImpl st.guidelines name args)

/-- `call_tool` on the running server (content store as at startup). -/
def callTool (name : String) (args : ToolArgs) : ToolResponse :=
  (handleToolRequest initialState name args).2

/-- `get_prompt` on the running server. -/
def getPrompt (name : String) (args : PromptArgs) : Except String PromptResult :=
  (handlePromptRequest initialState name args).2

def getAngularGuidelines (sectionName : Option String) : ToolResponse :=
  getAngularGuidelinesImpl ANGULAR_GUIDELINES sectionName

def getCodeExample (type : Option String) : Except String ToolResponse :=
  getCodeExampleImpl CODE_EXAMPLES type

def validateCode (code : String) (type : Option String) : ToolResponse :=
  validateCodeImpl ANGULAR_GUIDELINES code type

/-- Index of the first element satisfying `q`, scanning left to right. -/
def findFirstIdx (q : String → Bool) : List String → Option Nat
  | [] => none
  | a :: as => if q a then some 0 else (findFirstIdx q as).map (fun j => j + 1)

/-- The section extractor exactly as the spec (§4.1) words it: find the
first line containing the phrase; from the line after it, the first line
that starts with the top-level marker `## ` and does not contain the
phrase is the exclusive end boundary; no boundary → end of document;
phrase not found → the unmodified full document. Stated separately from
`getAngularGuidelinesImpl` so the two can be compared. -/
def extractSectionSpec (doc phrase : String) : String :=
  let lines := splitLines doc
  match findFirstIdx (fun line => strIncludes line phrase) lines with
  | none => doc
  | some start =>
    match findFirstIdx
        (fun line => strStartsWith line "## " && !(strIncludes line phrase))
        (lines.drop (start + 1)) with
    | none => joinNl (lines.drop start)
    | some j => joinNl ((lines.take (start + 1 + j)).drop start)

/-- A success envelope holding one text block. -/
def textResponse (t : String) : ToolResponse :=
  { content := [{ type := "text", text := t }] }

/-- The error envelope built by the dispatcher `catch` block. -/
def errorResponse (t : String) : ToolResponse :=
  { content := [{ type := "text", text := t }], isError := true }

def fullGuidelinesResponse : ToolResponse := textResponse ANGULAR_GUIDELINES

/-- The text returned by `get_code_example` for the `all` key: both catalog entries,
component first, each under a synthetic `## ` subheading. -/
def allExamplesText : String :=
  "# Angular Code Examples\n\n## Component Example" ++ CODE_EXAMPLES.component ++
    "\n\n## Service Example" ++ CODE_EXAMPLES.service

/-- Number of positions at which `pat` occurs in `s` (as character lists). -/
def countOccurrences (pat : List Char) : List Char → Nat
  | [] => 0
  | c :: cs => (if charsHavePrefix pat (c :: cs) then 1 else 0) + countOccurrences pat cs

theorem findFirstIdx_lt_length (q : String → Bool) :
    ∀ (l : List String) (i : Nat), findFirstIdx q l = some i → i < l.length
  | [], i, h => by simp [findFirstIdx] at h
  | a :: as, i, h => by
    unfold findFirstIdx at h
    by_cases hq : q a
    · rw [if_pos hq] at h
      cases h
      simp
    · rw [if_neg hq] at h
      rcases hmap : findFirstIdx q as with _ | j
      · rw [hmap] at h
        simp at h
      · rw [hmap] at h
        simp at h
        have := findFirstIdx_lt_length q as j hmap
        simp only [List.length_cons]
        omega

/-- A `findIndex` whose callback ignores the index is the `-1`-sentinel
rendering of `findFirstIdx`. -/
theorem jsFindIndexAux_no_index (q : String → Bool) :
    ∀ (l : List String) (k : Nat),
      jsFindIndexAux (fun _ a => q a) k l =
        (match findFirstIdx q l with
         | none => -1
         | some j => ((k + j : Nat) : Int))
  | [], k => rfl
  | a :: as, k => by
    unfold jsFindIndexAux findFirstIdx
    by_cases hq : q a
    · simp [hq]
    · rw [if_neg hq, if_neg hq]
      rw [jsFindIndexAux_no_index q as (k + 1)]
      rcases h : findFirstIdx q as with _ | j
      · rfl
      · show ((k + 1 + j : Nat) : Int) = ((k + (j + 1) : Nat) : Int)
        omega

/-- A `findIndex` whose callback also requires `index > s` skips the first
`s + 1` elements and then behaves like the index-free scan. -/
theorem jsFindIndexAux_threshold (q : String → Bool) (s : Nat) :
    ∀ (l : List String) (k : Nat),
      jsFindIndexAux (fun idx a => decide ((idx : Int) > (s : Int)) && q a) k l =
        (if s < k then jsFindIndexAux (fun _ a => q a) k l
         else match findFirstIdx q (l.drop (s + 1 - k)) with
              | none => -1
              | some j => ((s + 1 + j : Nat) : Int))
  | [], k => by
    by_cases h : s < k <;> simp [jsFindIndexAux, findFirstIdx, h]
  | a :: as, k => by
    by_cases hk : s < k
    · rw [if_pos hk]
      unfold jsFindIndexAux
      have hd : decide ((k : Int) > (s : Int)) = true := by
        simp only [decide_eq_true_eq]
        omega
      rw [hd]
      simp only [Bool.true_and]
      by_cases hq : q a
      · rw [if_pos hq, if_pos hq]
      · rw [if_neg hq, if_neg hq]
        rw [jsFindIndexAux_threshold q s as (k + 1), if_pos (by omega)]
    · rw [if_neg hk]
      unfold jsFindIndexAux
      have hd : decide ((k : Int) > (s : Int)) = false := by
        simp only [decide_eq_false_iff_not]
        omega
      rw [hd]
      simp only [Bool.false_and, Bool.false_eq_true, if_false]
      rw [jsFindIndexAux_threshold q s as (k + 1)]
      by_cases hk1 : s < k + 1
      · have hks : k = s := by omega
        subst hks
        rw [if_pos hk1]
        rw [jsFindIndexAux_no_index q as (k + 1)]
        have h1 : k + 1 - k = 1 := by omega
        rw [h1]
        simp only [List.drop_succ_cons, List.drop_zero]
      · rw [if_neg hk1]
        have h1 : s + 1 - k = (s + 1 - (k + 1)) + 1 := by omega
        rw [h1, List.drop_succ_cons]

/-- JS `slice` with non-negative bounds is `take`-then-`drop`. -/
theorem jsSlice_coe (l : List String) (a b : Nat) :
    jsSlice l (a : Int) (b : Int) = (l.take b).drop a := by
  unfold jsSlice jsIndexClamp
  have h1 : ¬ ((a : Int) < 0) := by omega
  have h2 : ¬ ((b : Int) < 0) := by omega
  rw [if_neg h1, if_neg h2]
  simp only [Int.toNat_ofNat]
  rcases Nat.le_total b l.length with hb | hb
  · rw [Nat.min_eq_left hb]
    rcases Nat.le_total a l.length with ha | ha
    · rw [Nat.min_eq_left ha]
    · rw [Nat.min_eq_right ha]
      rw [List.drop_of_length_le, List.drop_of_length_le]
      · simp only [List.length_take]
        omega
      · simp only [List.length_take]
        omega
  · rw [Nat.min_eq_right hb, List.take_length, List.take_of_length_le hb]
    rcases Nat.le_total a l.length with ha | ha
    · rw [Nat.min_eq_left ha]
    · rw [Nat.min_eq_right ha, List.drop_of_length_le (Nat.le_refl _),
        List.drop_of_length_le ha]

/-- The extraction code path coincides with the §4.1 description of the spec for
every document and every heading phrase. -/
theorem extractSectionCode_eq_spec (doc title : String) :
    extractSectionCode doc title = extractSectionSpec doc title := by
  unfold extractSectionCode extractSectionSpec jsFindIndex
  dsimp only
  rw [jsFindIndexAux_no_index (fun line => strIncludes line title) (splitLines doc) 0]
  rcases h : findFirstIdx (fun line => strIncludes line title) (splitLines doc) with _ | i
  · simp
  · dsimp only
    simp only [Nat.zero_add, Bool.and_assoc]
    rw [jsFindIndexAux_threshold
      (fun line => strStartsWith line "## " && !(strIncludes line title)) i (splitLines doc) 0]
    rw [if_neg (show ¬ (i < 0) by omega), Nat.sub_zero]
    rcases h2 : findFirstIdx
        (fun line => strStartsWith line "## " && !(strIncludes line title))
        ((splitLines doc).drop (i + 1)) with _ | j
    · dsimp only
      rw [if_pos (show ((i : Nat) : Int) ≠ -1 by omega), if_neg (show ¬ ((-1 : Int) ≠ -1) by omega)]
      rw [jsSlice_coe (splitLines doc) i (splitLines doc).length, List.take_length]
    · dsimp only
      rw [if_pos (show ((i : Nat) : Int) ≠ -1 by omega),
        if_pos (show (((i + 1 + j : Nat) : Int)) ≠ -1 by omega)]
      rw [jsSlice_coe (splitLines doc) i (i + 1 + j)]

theorem strAppendAssoc (a b c : String) : (a ++ b) ++ c = a ++ (b ++ c) := by
  apply String.ext
  simp [String.data_append, List.append_assoc]

/-- C5: for every recognized section title, the extraction performed by
the code is exactly the §4.1 description of the spec (`extractSectionSpec`):
start at the first line containing the canonical phrase, end exclusively
at the first later `## ` line not containing it, run to the end of the
document when there is no boundary, and return the unmodified full
document when the phrase occurs nowhere. Holds for every document. -/
theorem c5_extraction_matches_spec (doc s t : String)
    (h : sectionMap s = some t) :
    getAngularGuidelinesImpl doc (some s) = textResponse (extractSectionSpec doc t) := by
  unfold sectionMap at h
  split_ifs at h with h1 h2 h3 h4 h5 h6
  · subst h1
    cases h
    show textResponse (extractSectionCode doc "TypeScript Best Practices") = _
    rw [extractSectionCode_eq_spec]
  · subst h2
    cases h
    show textResponse (extractSectionCode doc "Angular Best Practices") = _
    rw [extractSectionCode_eq_spec]
  · subst h3
    cases h
    show textResponse (extractSectionCode doc "Components") = _
    rw [extractSectionCode_eq_spec]
  · subst h4
    cases h
    show textResponse (extractSectionCode doc "State Management") = _
    rw [extractSectionCode_eq_spec]
  · subst h5
    cases h
    show textResponse (extractSectionCode doc "Templates") = _
    rw [extractSectionCode_eq_spec]
  · subst h6
    cases h
    show textResponse (extractSectionCode doc "Services") = _
    rw [extractSectionCode_eq_spec]

/-- Witness for C5 at the concrete document and the `state` section. -/
theorem c5_extraction_matches_spec_witness :
    sectionMap "state" = some "State Management" ∧
    getAngularGuidelinesImpl ANGULAR_GUIDELINES (some "state") =
      textResponse (extractSectionSpec ANGULAR_GUIDELINES "State Management") :=
  ⟨by decide,
   c5_extraction_matches_spec ANGULAR_GUIDELINES "state" "State Management" (by decide)⟩

/-- C1: a tool name outside the three registered ones yields a caught
failure — the dispatcher returns an `isError` envelope whose single text
block reads `Error: Unknown tool: <name>` — while a prompt name outside
the two registered ones instead propagates as a rejection with message
`Unknown prompt: <name>`; the asymmetry is structural in the embedding
(`ToolResponse` envelope versus `Except.error`). -/
theorem c1_unknown_tool_vs_unknown_prompt :
    (∀ (st : ServerState) (name : String) (args : ToolArgs),
      name ≠ "get_angular_guidelines" → name ≠ "get_code_example" →
        name ≠ "validate_angular_code" →
        handleToolRequest st name args =
          (st, errorResponse ("Error: Unknown tool: " ++ name))) ∧
    (∀ (st : ServerState) (name : String) (args : PromptArgs),
      name ≠ "angular_code_review" → name ≠ "create_angular_component" →
        handlePromptRequest st name args =
          (st, Except.error ("Unknown prompt: " ++ name))) := by
  constructor
  · intro st name args h1 h2 h3
    unfold handleToolRequest callToolImpl
    rw [if_neg h1, if_neg h2, if_neg h3]
    show (st, errorResponse ("Error: " ++ ("Unknown tool: " ++ name))) = _
    rw [← strAppendAssoc]
    have hlit : ("Error: " ++ "Unknown tool: " : String) = "Error: Unknown tool: " := rfl
    rw [hlit]
  · intro st name args h1 h2
    unfold handlePromptRequest getPromptImpl
    rw [if_neg h1, if_neg h2]

/-- Witness for C1 at concrete unregistered names. -/
theorem c1_unknown_tool_vs_unknown_prompt_witness :
    handleToolRequest initialState "bogus_tool" {} =
      (initialState, errorResponse ("Error: Unknown tool: " ++ "bogus_tool")) ∧
    handlePromptRequest initialState "bogus_prompt" {} =
      (initialState, Except.error ("Unknown prompt: " ++ "bogus_prompt")) :=
  ⟨c1_unknown_tool_vs_unknown_prompt.1 initialState "bogus_tool" {}
      (by decide) (by decide) (by decide),
   c1_unknown_tool_vs_unknown_prompt.2 initialState "bogus_prompt" {}
      (by decide) (by decide)⟩

/-- C8: every tool and prompt handler is a deterministic, side-effect-free
function of its arguments and the startup content: the dispatcher returns
the server state unchanged, and repeating the identical call yields the
identical response. -/
theorem c8_stateless_deterministic (st : ServerState) (name : String)
    (targs : ToolArgs) (pargs : PromptArgs) :
    (handleToolRequest st name targs).1 = st ∧
    (handleToolRequest (handleToolRequest st name targs).1 name targs).2 =
      (handleToolRequest st name targs).2 ∧
    (handlePromptRequest st name pargs).1 = st ∧
    (handlePromptRequest (handlePromptRequest st name pargs).1 name pargs).2 =
      (handlePromptRequest st name pargs).2 :=
  ⟨rfl, rfl, rfl, rfl⟩

/-- C9: any input containing the three characters `any` — also inside a
longer word, for every category — gets the blocking escape-hatch finding
as its first finding: the rule is a raw case-sensitive substring test. -/
theorem c9_any_rule_is_raw_substring (code : String) (cat : Option String)
    (h : strIncludes code "any" = true) :
    (validateIssues code cat).head? =
      some "❌ Avoid using \"any\" type - use specific types or \"unknown\" instead" := by
  unfold validateIssues
  rw [if_pos h]
  simp [List.append_assoc]

/-- Witness for C9: `any` inside the word `company`, with no category. -/
theorem c9_any_rule_is_raw_substring_witness :
    strIncludes "const company = 1;" "any" = true ∧
    (validateIssues "const company = 1;" none).head? =
      some "❌ Avoid using \"any\" type - use specific types or \"unknown\" instead" :=
  ⟨by decide, c9_any_rule_is_raw_substring "const company = 1;" none (by decide)⟩

/-- C10: calling `get_code_example` without the required `type` argument is
not reported as a missing-argument error: the `undefined` value falls past
the `all` check into the catalog lookup, and the caller receives the
error envelope `Error: No example available for type: undefined` — the
same shape as for an unknown key. -/
theorem c10_missing_type_is_lookup_failure (st : ServerState)
    (sec code : Option String) :
    handleToolRequest st "get_code_example"
        { sectionName := sec, type := none, code := code } =
      (st, errorResponse "Error: No example available for type: undefined") ∧
    handleToolRequest st "get_code_example"
        { sectionName := sec, type := some "bogus", code := code } =
      (st, errorResponse "Error: No example available for type: bogus") :=
  ⟨rfl, rfl⟩

/-- C3: `validate_angular_code` on the code text `let x: any = 1` with
the component category returns exactly three findings, in the fixed
rule-table order: the blocking `any` finding, then the OnPush advisory,
then the signals suggestion. -/
theorem c3_three_findings_in_table_order :
    validateIssues "let x: any = 1" (some "component") =
      ["❌ Avoid using \"any\" type - use specific types or \"unknown\" instead",
       "⚠️ Consider using OnPush change detection strategy for better performance",
       "💡 Consider using signals for state management"] := by decide

/-- C4: validating the catalog component example as a component yields
zero findings and the success banner followed by the full guideline
document appended verbatim; whenever findings are non-empty, the response
is instead the bulleted findings list followed by the same document. -/
theorem c4_modern_example_zero_findings :
    validateIssues CODE_EXAMPLES.component (some "component") = [] ∧
    validateCode CODE_EXAMPLES.component (some "component") =
      textResponse
        ("# Code Validation Results\n\n✅ Code looks good! No major issues found.\n\n## Guidelines:\n" ++
          ANGULAR_GUIDELINES) ∧
    (∀ (doc code : String) (cat : Option String), validateIssues code cat ≠ [] →
      validateCodeImpl doc code cat =
        textResponse
          ("# Code Validation Results\n\n## Issues Found:\n" ++
            joinNl ((validateIssues code cat).map (fun issue => "- " ++ issue)) ++
            "\n\n## Guidelines:\n" ++ doc)) := by
  refine ⟨by decide, ?_, ?_⟩
  · unfold validateCode validateCodeImpl
    rw [show validateIssues CODE_EXAMPLES.component (some "component") = [] from by decide]
    rfl
  · intro doc code cat h
    unfold validateCodeImpl
    dsimp only
    rw [if_pos (List.length_pos.mpr h)]
    rfl

/-- Witness for the conditional part of C4 at a concrete failing input. -/
theorem c4_modern_example_zero_findings_witness :
    validateIssues "ngClass" none ≠ [] ∧
    validateCodeImpl "D" "ngClass" none =
      textResponse
        ("# Code Validation Results\n\n## Issues Found:\n" ++
          joinNl ((validateIssues "ngClass" none).map (fun issue => "- " ++ issue)) ++
          "\n\n## Guidelines:\n" ++ "D") :=
  ⟨by decide, c4_modern_example_zero_findings.2.2 "D" "ngClass" none (by decide)⟩

/-- C6: for every string input and every category the validation engine
succeeds — the returned envelope is not error-flagged — and the call
fails, surfaced through the dispatcher error envelope, exactly when the
code text is absent. -/
theorem c6_error_iff_code_absent (st : ServerState) (args : ToolArgs) :
    ((handleToolRequest st "validate_angular_code" args).2.isError = true) ↔
      args.code = none := by
  unfold handleToolRequest callToolImpl
  rcases h : args.code with _ | c <;>
    simp [h, validateCodeImpl, errorResponse]

/-- C7: `get_code_example` with the `all` key returns a single text block containing
the literal component example and the literal service example, each
occurring exactly once, component first, each under a synthetic `## `
subheading (the decomposition is `allExamplesText` itself). -/
theorem c7_all_has_both_examples_once :
    getCodeExample (some "all") = .ok (textResponse allExamplesText) ∧
    countOccurrences CODE_EXAMPLES.component.data allExamplesText.data = 1 ∧
    countOccurrences CODE_EXAMPLES.service.data allExamplesText.data = 1 :=
  ⟨rfl, by decide, by decide⟩

/-- C2: for each of the six recognized section values the tool returns a
single non-empty text block that is a substring of the full guideline
document and starts at the corresponding `## ` heading line; for `all`,
an omitted section, and any unrecognized value it returns the entire
document unchanged, as a success. -/
theorem c2_section_values :
    getAngularGuidelines none = fullGuidelinesResponse ∧
    getAngularGuidelines (some "all") = fullGuidelinesResponse ∧
    (∀ s, sectionMap s = none →
      getAngularGuidelines (some s) = fullGuidelinesResponse) ∧
    (∀ s t, sectionMap s = some t →
      (getAngularGuidelines (some s)).isError = false ∧
      (getAngularGuidelines (some s)).content.length = 1 ∧
      ∀ b ∈ (getAngularGuidelines (some s)).content,
        b.type = "text" ∧ b.text ≠ "" ∧
        strStartsWith b.text ("## " ++ t) = true ∧
        strIncludes ANGULAR_GUIDELINES b.text = true) := by
  refine ⟨rfl, rfl, ?_, ?_⟩
  · intro s h
    have hc : extractContent ANGULAR_GUIDELINES (some s) = ANGULAR_GUIDELINES := by
      unfold extractContent
      dsimp only
      split_ifs with h1 h2
      · rfl
      · rfl
      · rw [h]
    show textResponse (extractContent ANGULAR_GUIDELINES (some s)) =
      textResponse ANGULAR_GUIDELINES
    rw [hc]
  · intro s t h
    unfold sectionMap at h
    split_ifs at h with h1 h2 h3 h4 h5 h6
    · subst h1
      cases h
      decide
    · subst h2
      cases h
      decide
    · subst h3
      cases h
      decide
    · subst h4
      cases h
      decide
    · subst h5
      cases h
      decide
    · subst h6
      cases h
      decide

/-- Witness for C2 at a concrete unrecognized and a concrete recognized
section value. -/
theorem c2_section_values_witness :
    getAngularGuidelines (some "bogus") = fullGuidelinesResponse ∧
    (getAngularGuidelines (some "state")).isError = false :=
  ⟨c2_section_values.2.2.1 "bogus" (by decide),
   (c2_section_values.2.2.2 "state" "State Management" (by decide)).1⟩
